import Mathlib

/-!
Verification development for the `pfe` migration pipeline
(`data_migration_postgres_to_mongo.py` and `scriptrans.py`).

The two Python scripts implement one extract → transform → load batch:
a PostgreSQL query materialises reservation-room rows as field-keyed
records, a transformation pass converts every `date`/`datetime` value to
its ISO-8601 string, and the batch is bulk-inserted into a MongoDB
collection, with a `try/except/finally` wrapper that logs errors and
closes whichever connections were opened.

This file shallowly embeds those scripts: dict rows become association
lists of `String × Value`, Python `date`/`datetime` become explicit
component structures, SQL `NULL` becomes `Value.vNull` (with SQL
three-valued equality modelled where the queries compare nullable
columns), and the exception/cleanup control flow of the `main` function
becomes an explicit trace function over an environment describing which
external calls succeed.
-/

/-- A calendar date, as carried by a Python `datetime.date` value. -/
structure Date where
  year : Nat
  month : Nat
  day : Nat
deriving DecidableEq, Repr

/-- A timestamp, as carried by a Python `datetime.datetime` value
(microseconds are zero in the modelled data). -/
structure DateTime where
  year : Nat
  month : Nat
  day : Nat
  hour : Nat
  minute : Nat
  second : Nat
deriving DecidableEq, Repr

/-- The digit character for `n < 10`. -/
def digitChar (n : Nat) : Char := Char.ofNat (48 + n)

/-- Zero-padded two-digit rendering, as Python `isoformat` prints
month, day, hour, minute and second. -/
def pad2 (n : Nat) : String := String.mk [digitChar (n / 10 % 10), digitChar (n % 10)]

/-- Zero-padded four-digit rendering, as Python `isoformat` prints the year. -/
def pad4 (n : Nat) : String :=
  String.mk [digitChar (n / 1000 % 10), digitChar (n / 100 % 10),
             digitChar (n / 10 % 10), digitChar (n % 10)]

/-- `date.isoformat()`: `YYYY-MM-DD`. -/
def Date.isoformat (d : Date) : String :=
  pad4 d.year ++ "-" ++ pad2 d.month ++ "-" ++ pad2 d.day

/-- `datetime.isoformat()` with zero microseconds: `YYYY-MM-DDTHH:MM:SS`. -/
def DateTime.isoformat (t : DateTime) : String :=
  pad4 t.year ++ "-" ++ pad2 t.month ++ "-" ++ pad2 t.day ++ "T" ++
  pad2 t.hour ++ ":" ++ pad2 t.minute ++ ":" ++ pad2 t.second

/-- Mixed-radix key realising chronological order on timestamps
(the order `ORDER BY created_at ASC` sorts by). -/
def DateTime.key (t : DateTime) : Nat :=
  ((((t.year * 13 + t.month) * 32 + t.day) * 24 + t.hour) * 60 + t.minute) * 60 + t.second

/-- A runtime value of a record field: the value universe the pipeline
actually moves (SQL text, integers, booleans, `NULL`, dates, timestamps). -/
inductive Value where
  | vNull
  | vStr (s : String)
  | vInt (n : Int)
  | vBool (b : Bool)
  | vDate (d : Date)
  | vDateTime (t : DateTime)
deriving DecidableEq, Repr

/-- `isinstance(value, (datetime, date))` — the test both scripts apply
to every field value. -/
def Value.isDateLike : Value → Bool
  | .vDate _ => true
  | .vDateTime _ => true
  | _ => false

/-- One record / MongoDB document: a field-name-keyed mapping, kept as an
association list in the key order of the query projection (Python dicts
preserve insertion order). -/
abbrev Record := List (String × Value)

/-- Dict lookup `record[key]`. -/
def Record.get? (r : Record) (k : String) : Option Value :=
  (r.find? (fun kv => kv.1 == k)).map (fun kv => kv.2)

/-- The per-value action of the transformation loop:
`record[key] = value.isoformat()` when the value is a date or datetime,
otherwise the value is left as it is. -/
def transformValue : Value → Value
  | .vDate d => .vStr d.isoformat
  | .vDateTime t => .vStr t.isoformat
  | v => v

/-- The inner loop of `transform_data` over one record: every field is
rewritten through `transformValue`; keys are untouched. -/
def transformRecord (r : Record) : Record :=
  r.map (fun kv => (kv.1, transformValue kv.2))

/-- `transform_data(records)` of `data_migration_postgres_to_mongo.py`
(the same loop appears inline in `scriptrans.py`): for every record, for
every field, convert date/datetime values to their ISO-8601 strings. -/
def transform_data (records : List Record) : List Record :=
  records.map transformRecord


/-! ### Relational model for the extraction query

Only the tables the two correlated subqueries read are modelled in full;
the result of the nine `LEFT JOIN`s of the outer query is taken as input
(one `JoinedRow` per output row of the join), since the claims under
proof concern the projection list and the subqueries, not the join
semantics. -/

/-- A row of `magic_hotels_skanes.reservation_rooms`, restricted to the
columns the correlated count subquery reads; `master_guest_id` and
`reservation_state_id` are nullable foreign keys. -/
structure ReservationRoomRow where
  id : Int
  master_guest_id : Option Int
  reservation_state_id : Option Int
deriving DecidableEq, Repr

/-- A row of `magic_hotels_skanes.reservation_states`. -/
structure ReservationStateRow where
  id : Int
  system_value : String
deriving DecidableEq, Repr

/-- A row of `magic_hotels_skanes.reservation_room_states` (the
per-room state history the date subquery reads). -/
structure ReservationRoomStateRow where
  reservation_room_id : Int
  reservation_state_id : Int
  created_at : DateTime
deriving DecidableEq, Repr

/-- The tables visible to the correlated subqueries. -/
structure PgDatabase where
  reservation_rooms : List ReservationRoomRow
  reservation_states : List ReservationStateRow
  reservation_room_states : List ReservationRoomStateRow
deriving DecidableEq, Repr

/-- SQL three-valued equality on nullable integers, collapsed to the
`WHERE`-clause reading: `NULL = x` is not satisfied. -/
def sqlEqO : Option Int → Option Int → Bool
  | some a, some b => a == b
  | _, _ => false

/-- SQL addition of three nullable integers:
`number_of_adult + number_of_child + inf` is `NULL` whenever any operand
is `NULL`, and the integer sum otherwise. -/
def sqlAdd3 : Option Int → Option Int → Option Int → Value
  | some a, some b, some c => .vInt (a + b + c)
  | _, _, _ => .vNull

/-- The correlated count subquery:
`SELECT COUNT(*) FROM reservation_rooms r2 JOIN reservation_states s2 ON
s2.id = r2.reservation_state_id WHERE r2.master_guest_id =
rr.master_guest_id AND s2.system_value = 'cancelled'`, for an outer row
whose `master_guest_id` is `g`. `COUNT(*)` over the join is the sum,
over the rows `r2`, of the number of join partners `s2` that pass the
`ON` and `WHERE` conditions. -/
def countCancelled (db : PgDatabase) (g : Option Int) : Nat :=
  (db.reservation_rooms.map (fun r2 =>
    (db.reservation_states.filter (fun s2 =>
      (r2.reservation_state_id == some s2.id) &&
      (sqlEqO r2.master_guest_id g && (s2.system_value == "cancelled")))).length)).sum

/-- Whether a reservation-room's state resolves, through the
`reservation_states` lookup, to the cancelled state. -/
def roomStateCancelled (db : PgDatabase) (r2 : ReservationRoomRow) : Bool :=
  db.reservation_states.any (fun s2 =>
    (r2.reservation_state_id == some s2.id) && (s2.system_value == "cancelled"))

/-- Modelled from the spec: "a count of historically cancelled
reservation-rooms sharing the same guest identity, filtered by a
reservation-state lookup matching a cancelled state" — the number of
reservation-room rows with the outer row's master guest identity whose
state matches `cancelled`. Stated for comparison with `countCancelled`,
the embedding of the SQL aggregate itself. -/
def countCancelledSpec (db : PgDatabase) (g : Option Int) : Nat :=
  (db.reservation_rooms.filter (fun r2 =>
    sqlEqO r2.master_guest_id g && roomStateCancelled db r2)).length

/-- The multiset of timestamps the date subquery ranges over for a given
reservation-room id: one per join row of
`reservation_room_states rrs JOIN reservation_states st ON st.id =
rrs.reservation_state_id` passing `rrs.reservation_room_id = rr.id AND
st.system_value = 'cancelled'`, projected to `rrs.created_at`. -/
def cancelledStamps (db : PgDatabase) (roomId : Int) : List DateTime :=
  (db.reservation_room_states.map (fun rrs =>
    (db.reservation_states.filter (fun st =>
      (st.id == rrs.reservation_state_id) &&
      ((rrs.reservation_room_id == roomId) &&
       (st.system_value == "cancelled")))).map (fun _ => rrs.created_at))).flatten

/-- Chronological order on timestamps. -/
def dtLe (a b : DateTime) : Prop := a.key ≤ b.key

instance : DecidableRel dtLe := fun a b => Nat.decLe a.key b.key

instance : IsTotal DateTime dtLe := ⟨fun a b => Nat.le_total a.key b.key⟩

instance : IsTrans DateTime dtLe := ⟨fun _ _ _ => Nat.le_trans⟩

/-- `ORDER BY rrs.created_at ASC`, modelled as a sort by chronological
order. -/
def orderByCreatedAtAsc (l : List DateTime) : List DateTime :=
  l.insertionSort dtLe

/-- The correlated date subquery: order the matching timestamps
ascending and take the first (`LIMIT 1`); the scalar subquery yields SQL
`NULL` (`none`) on an empty result set. -/
def cancelledDateQuery (db : PgDatabase) (roomId : Int) : Option DateTime :=
  (orderByCreatedAtAsc (cancelledStamps db roomId)).head?

/-- `target_fields` of `scriptrans.py`: the field names of the query
projection, in projection order. -/
def target_fields : List String :=
  ["reservation_id", "requested_room_type_id", "requested_room_type_code",
   "assigned_room_type_code",
   "arrival_date", "departure_date", "stay", "booking_date",
   "origin_city", "origin_reservation", "source_reservation",
   "occupancy", "card_group_id", "card_group_name", "card_group_type",
   "market_code_id", "market_code_name",
   "rate_code", "rate_name",
   "preview_cancelled", "preview_no_show",
   "cancelled_date", "no_show_date",
   "preference_guest", "preference_reservation", "season"]

/-- One row of the outer `FROM ... LEFT JOIN ...` result: the column
values the `SELECT` list references. Nullable columns used in arithmetic
or correlation are `Option Int`; all others are carried as `Value`
(a `LEFT JOIN` miss puts `Value.vNull` there). `canceled_at` is only
read by the `scriptrans.py` query variant. -/
structure JoinedRow where
  reservation_id : Value
  room_type_id : Value
  rrt_code : Value
  art_code : Value
  arrival : Value
  departure : Value
  stay : Value
  booking_date : Value
  gc_country : Value
  ro_name : Value
  rs_name : Value
  number_of_adult : Option Int
  number_of_child : Option Int
  inf : Option Int
  card_group_id : Value
  agency_name : Value
  card_group_type : Value
  market_code_id : Value
  mc_name : Value
  rt_code : Value
  rt_name : Value
  master_guest_id : Option Int
  id : Int
  canceled_at : Value
deriving DecidableEq, Repr

/-- The `SELECT` projection of `extract_data_from_postgres`
(`data_migration_postgres_to_mongo.py`), applied to one join row:
builds the record `dict(zip(colnames, row))` in projection order. -/
def extractRecord (db : PgDatabase) (j : JoinedRow) : Record :=
  [("reservation_id", j.reservation_id),
   ("requested_room_type_id", j.room_type_id),
   ("requested_room_type_code", j.rrt_code),
   ("assigned_room_type_code", j.art_code),
   ("arrival_date", j.arrival),
   ("departure_date", j.departure),
   ("stay", j.stay),
   ("booking_date", j.booking_date),
   ("origin_city", j.gc_country),
   ("origin_reservation", j.ro_name),
   ("source_reservation", j.rs_name),
   ("occupancy", sqlAdd3 j.number_of_adult j.number_of_child j.inf),
   ("card_group_id", j.card_group_id),
   ("card_group_name", j.agency_name),
   ("card_group_type", j.card_group_type),
   ("market_code_id", j.market_code_id),
   ("market_code_name", j.mc_name),
   ("rate_code", j.rt_code),
   ("rate_name", j.rt_name),
   ("preview_cancelled", .vInt (countCancelled db j.master_guest_id)),
   ("preview_no_show", .vBool false),
   ("cancelled_date",
     match cancelledDateQuery db j.id with
     | some t => .vDateTime t
     | none => .vNull),
   ("no_show_date", .vNull),
   ("preference_guest", .vNull),
   ("preference_reservation", .vNull),
   ("season", .vNull)]

/-- `extract_data_from_postgres`: one record per row of the query
result, each built from the fixed projection. -/
def extract_data_from_postgres (db : PgDatabase) (joined : List JoinedRow) : List Record :=
  joined.map (extractRecord db)

/-- The `SELECT` projection of the `scriptrans.py` query variant,
applied to one join row: `origin_city` and `card_group_name` are
defaulted to the empty string, `preview_cancelled` and
`preview_no_show` are the constant `false`, and `cancelled_date` is the
`rr.canceled_at` column. -/
def scriptransRecord (j : JoinedRow) : Record :=
  [("reservation_id", j.reservation_id),
   ("requested_room_type_id", j.room_type_id),
   ("requested_room_type_code", j.rrt_code),
   ("assigned_room_type_code", j.art_code),
   ("arrival_date", j.arrival),
   ("departure_date", j.departure),
   ("stay", j.stay),
   ("booking_date", j.booking_date),
   ("origin_city", .vStr ""),
   ("origin_reservation", j.ro_name),
   ("source_reservation", j.rs_name),
   ("occupancy", sqlAdd3 j.number_of_adult j.number_of_child j.inf),
   ("card_group_id", j.card_group_id),
   ("card_group_name", .vStr ""),
   ("card_group_type", j.card_group_type),
   ("market_code_id", j.market_code_id),
   ("market_code_name", j.mc_name),
   ("rate_code", j.rt_code),
   ("rate_name", j.rt_name),
   ("preview_cancelled", .vBool false),
   ("preview_no_show", .vBool false),
   ("cancelled_date", j.canceled_at),
   ("no_show_date", .vNull),
   ("preference_guest", .vNull),
   ("preference_reservation", .vNull),
   ("season", .vNull)]

/-- A database whose modelled tables are all empty. -/
def emptyDb : PgDatabase := ⟨[], [], []⟩

/-- A small concrete database: guest 7 owns rooms 1 and 2, room 1 is in
the cancelled state (with two history entries), room 2 is confirmed, and
room 3 belongs to guest 8. -/
def sampleDb : PgDatabase :=
  { reservation_rooms :=
      [⟨1, some 7, some 10⟩, ⟨2, some 7, some 11⟩, ⟨3, some 8, some 10⟩],
    reservation_states := [⟨10, "cancelled"⟩, ⟨11, "confirmed"⟩],
    reservation_room_states :=
      [⟨1, 10, ⟨2024, 1, 2, 0, 0, 0⟩⟩, ⟨1, 10, ⟨2024, 1, 1, 5, 30, 0⟩⟩] }

/-- A concrete join row: the example scenario of the spec
(`arrival=2024-03-01`, `departure=2024-03-05`, `number_of_adult=2`,
`number_of_child=1`, `inf=0`). -/
def scenarioRow : JoinedRow :=
  { reservation_id := .vInt 41,
    room_type_id := .vInt 5,
    rrt_code := .vStr "DBL",
    art_code := .vStr "DBL",
    arrival := .vDate ⟨2024, 3, 1⟩,
    departure := .vDate ⟨2024, 3, 5⟩,
    stay := .vInt 4,
    booking_date := .vDateTime ⟨2024, 2, 14, 9, 30, 0⟩,
    gc_country := .vStr "TN",
    ro_name := .vStr "web",
    rs_name := .vStr "direct",
    number_of_adult := some 2,
    number_of_child := some 1,
    inf := some 0,
    card_group_id := .vNull,
    agency_name := .vNull,
    card_group_type := .vNull,
    market_code_id := .vInt 3,
    mc_name := .vStr "leisure",
    rt_code := .vStr "BB",
    rt_name := .vStr "bed-and-breakfast",
    master_guest_id := some 7,
    id := 1,
    canceled_at := .vNull }

/-! ### Loader and orchestrator

`load_data_to_mongo` is modelled against a sink state (the list of
documents in the target collection) plus two environment facts: whether
the bulk insert is accepted, and which documents end up committed when
it is not (MongoDB `insert_many` is non-transactional). The Python
function logs the inserted count but ends without a `return` value on
every path, which the model records in the `returned` field.

`main` is modelled as `main_try` (the body of the `try:` block, stopping
at the first failing call, as an exception would) composed with the
`except`/`finally` clauses in `main_run`: the handler logs and swallows
the exception, and the cleanup closes exactly the connections whose
variables are non-`None`. The inline pipeline of `scriptrans.py` gets
the same treatment (`scriptrans_try`/`scriptrans_run`), with its cursor
and its `if ... in locals()` cleanup conditions. -/

/-- Observables of one `load_data_to_mongo(client, records)` call. -/
structure LoadTrace where
  sink : List Record
  insertManyCalls : Nat
  loggedCount : Option Nat
  returned : Option Nat
deriving DecidableEq, Repr

/-- `load_data_to_mongo`: on an empty batch, log and return without
touching the collection; otherwise call `insert_many` once. When the
sink accepts the batch, all documents commit and the length of
`inserted_ids` is logged; when it rejects it, the exception is re-raised
(second component `true`) and `partialWrite` is whatever subset the
non-transactional bulk write committed. The Python function has no
`return value` statement on any path, hence `returned := none`. -/
def load_data_to_mongo (sinkAcceptsAll : Bool) (partialWrite : List Record)
    (sink : List Record) (records : List Record) : LoadTrace × Bool :=
  if records.isEmpty then
    ({ sink := sink, insertManyCalls := 0, loggedCount := none, returned := none }, false)
  else if sinkAcceptsAll then
    ({ sink := sink ++ records, insertManyCalls := 1,
       loggedCount := some records.length, returned := none }, false)
  else
    ({ sink := sink ++ partialWrite, insertManyCalls := 1,
       loggedCount := none, returned := none }, true)

/-- Environment of one `main()` run: which external calls succeed. -/
structure Env where
  pgOk : Bool
  extractResult : Option (List Record)
  mongoOk : Bool
  sinkAcceptsAll : Bool
  partialWrite : List Record
deriving DecidableEq, Repr

/-- State accumulated inside the `try:` block of `main`. -/
structure BodyState where
  pgOpen : Bool
  mongoOpen : Bool
  enteredTransform : Bool
  enteredLoad : Bool
  sinkDocs : List Record
deriving DecidableEq, Repr

/-- `pg_conn = None; mongo_client = None`, empty sink. -/
def initialBody : BodyState :=
  { pgOpen := false, mongoOpen := false, enteredTransform := false,
    enteredLoad := false, sinkDocs := [] }

/-- The `try:` block of `main`: connect to PostgreSQL, extract,
transform, connect to MongoDB, load. Each failing call raises, ending
the block at that point (second component `true`). -/
def main_try (env : Env) : BodyState × Bool :=
  if env.pgOk = false then (initialBody, true)
  else
    let s1 := { initialBody with pgOpen := true }
    match env.extractResult with
    | none => (s1, true)
    | some data =>
      let transformed := transform_data data
      let s2 := { s1 with enteredTransform := true }
      if env.mongoOk = false then (s2, true)
      else
        let s3 := { s2 with mongoOpen := true, enteredLoad := true }
        let r := load_data_to_mongo env.sinkAcceptsAll env.partialWrite s3.sinkDocs transformed
        ({ s3 with sinkDocs := r.1.sink }, r.2)

/-- Observables of one whole `main()` run. -/
structure RunTrace where
  pgOpened : Bool
  mongoOpened : Bool
  pgClosed : Bool
  mongoClosed : Bool
  enteredTransform : Bool
  enteredLoad : Bool
  errorLogged : Bool
  raised : Bool
  sinkDocs : List Record
deriving DecidableEq, Repr

/-- `main()`: run the `try:` body, then the `except Exception` clause
(log the error; nothing propagates to the caller, so `raised := false`
unconditionally) and the `finally:` clause (`if pg_conn: pg_conn.close()`
and `if mongo_client: mongo_client.close()` — exactly the opened
connections are closed). -/
def main_run (env : Env) : RunTrace :=
  let r := main_try env
  { pgOpened := r.1.pgOpen
    mongoOpened := r.1.mongoOpen
    pgClosed := r.1.pgOpen
    mongoClosed := r.1.mongoOpen
    enteredTransform := r.1.enteredTransform
    enteredLoad := r.1.enteredLoad
    errorLogged := r.2
    raised := false
    sinkDocs := r.1.sinkDocs }

/-- Process exit status of `python data_migration_postgres_to_mongo.py`:
nonzero only if `main()` lets an exception escape. -/
def main_exit_code (env : Env) : Nat :=
  if (main_run env).raised then 1 else 0

/-- Environment of one `scriptrans.py` run. -/
structure SEnv where
  pgOk : Bool
  cursorOk : Bool
  mongoOk : Bool
  queryResult : Option (List Record)
  insertOk : Bool
  partialWrite : List Record
deriving DecidableEq, Repr

/-- State accumulated inside the `try:` block of `scriptrans.py`. -/
structure SBodyState where
  pgOpen : Bool
  cursorOpen : Bool
  mongoOpen : Bool
  sinkDocs : List Record
deriving DecidableEq, Repr

/-- No local connection variables bound yet, empty sink. -/
def scriptransInitial : SBodyState :=
  { pgOpen := false, cursorOpen := false, mongoOpen := false, sinkDocs := [] }

/-- The `try:` block of `scriptrans.py`: connect to PostgreSQL, open a
cursor, connect to MongoDB, execute and fetch the query, build and
transform documents, and insert them if there are any. -/
def scriptrans_try (env : SEnv) : SBodyState × Bool :=
  if env.pgOk = false then (scriptransInitial, true)
  else
    let s1 := { scriptransInitial with pgOpen := true }
    if env.cursorOk = false then (s1, true)
    else
      let s2 := { s1 with cursorOpen := true }
      if env.mongoOk = false then (s2, true)
      else
        let s3 := { s2 with mongoOpen := true }
        match env.queryResult with
        | none => (s3, true)
        | some rows =>
          let documents := transform_data rows
          if documents.isEmpty then (s3, false)
          else if env.insertOk then
            ({ s3 with sinkDocs := s3.sinkDocs ++ documents }, false)
          else
            ({ s3 with sinkDocs := s3.sinkDocs ++ env.partialWrite }, true)

/-- Observables of one whole `scriptrans.py` run. -/
structure SRunTrace where
  pgOpened : Bool
  cursorOpened : Bool
  mongoOpened : Bool
  pgClosed : Bool
  cursorClosed : Bool
  mongoClosed : Bool
  errorPrinted : Bool
  raised : Bool
  sinkDocs : List Record
deriving DecidableEq, Repr

/-- The module body of `scriptrans.py`: the `try:` block, the bare
`except Exception` clause (print the error, swallow it) and the
`finally:` clause, which closes each of cursor, connection and client
exactly when its variable was bound (`if ... in locals()`). -/
def scriptrans_run (env : SEnv) : SRunTrace :=
  let r := scriptrans_try env
  { pgOpened := r.1.pgOpen
    cursorOpened := r.1.cursorOpen
    mongoOpened := r.1.mongoOpen
    pgClosed := r.1.pgOpen
    cursorClosed := r.1.cursorOpen
    mongoClosed := r.1.mongoOpen
    errorPrinted := r.2
    raised := false
    sinkDocs := r.1.sinkDocs }

theorem transformValue_of_not_dateLike {v : Value} (h : v.isDateLike = false) :
    transformValue v = v := by
  cases v <;> simp_all [Value.isDateLike, transformValue]

theorem isDateLike_transformValue (v : Value) : (transformValue v).isDateLike = false := by
  cases v <;> rfl

theorem transformValue_transformValue (v : Value) :
    transformValue (transformValue v) = transformValue v := by
  cases v <;> rfl

theorem transformRecord_transformRecord (r : Record) :
    transformRecord (transformRecord r) = transformRecord r := by
  simp [transformRecord, transformValue_transformValue]

/-- C1 -- The transformation rule: every date becomes its `YYYY-MM-DD`
string, every datetime its full ISO timestamp string, every other value
(null included) passes through unchanged; the rule is applied to every
field of every record with no allowlist, and afterwards no field of any
record holds a native date or datetime value. -/
theorem transform_type_closure :
    (∀ d : Date, transformValue (.vDate d) = .vStr d.isoformat) ∧
    (∀ t : DateTime, transformValue (.vDateTime t) = .vStr t.isoformat) ∧
    (∀ v : Value, v.isDateLike = false → transformValue v = v) ∧
    (∀ records : List Record,
      transform_data records =
        records.map (fun r => r.map (fun kv => (kv.1, transformValue kv.2)))) ∧
    (∀ records : List Record,
      ((transform_data records).all
        (fun r => r.all (fun kv => !kv.2.isDateLike))) = true) := by
  refine ⟨fun _ => rfl, fun _ => rfl, fun v h => transformValue_of_not_dateLike h,
    fun _ => rfl, fun records => ?_⟩
  simp only [List.all_eq_true, transform_data, List.mem_map]
  rintro r ⟨r₀, -, rfl⟩ kv hkv
  simp only [transformRecord, List.mem_map] at hkv
  obtain ⟨kv₀, -, rfl⟩ := hkv
  simp [isDateLike_transformValue]

/-- C1 witness: the rule evaluated at concrete values. -/
theorem transform_type_closure_witness :
    transformValue (.vInt 7) = .vInt 7 :=
  transform_type_closure.2.2.1 (.vInt 7) rfl

/-- C4 -- Transformation is idempotent: applying `transform_data` twice
yields the same list of records as applying it once. -/
theorem transform_data_idempotent (records : List Record) :
    transform_data (transform_data records) = transform_data records := by
  simp [transform_data, List.map_map, Function.comp, transformRecord_transformRecord]

/-- C10 -- Frame property of the transformation: the output has the same
length, records stay in their positions, and each record keeps exactly
its field names in their order; only values change. -/
theorem transform_data_frame (records : List Record) :
    (transform_data records).length = records.length ∧
    (transform_data records).map (fun r => r.map Prod.fst) =
      records.map (fun r => r.map Prod.fst) := by
  constructor
  · simp [transform_data]
  · simp only [transform_data, List.map_map]
    refine List.map_congr_left (fun r _ => ?_)
    simp [transformRecord, Function.comp, List.map_map]

/-- C3 counterexample: a concrete extracted record has 26 distinct field
names, not 25, and the legacy variant emits the unmapped `origin_city`
field as an empty string, not as null. -/
theorem record_field_set_counterexample :
    (extractRecord emptyDb scenarioRow).length = 26 ∧
    ((extractRecord emptyDb scenarioRow).map Prod.fst).Nodup ∧
    ¬ (extractRecord emptyDb scenarioRow).length = 25 ∧
    (scriptransRecord scenarioRow).get? "origin_city" = some (.vStr "") ∧
    ¬ (scriptransRecord scenarioRow).get? "origin_city" = some .vNull := by
  refine ⟨rfl, by decide, by decide, rfl, by decide⟩

/-- C3 (amended) -- Every record is built from the one fixed query
projection of 26 distinct named fields, so the field set is identical
across all records of a batch (in both query variants); the main
variant's unmapped reserved fields are explicit nulls in every record,
while the legacy `scriptrans` variant emits its unmapped descriptive
fields `origin_city` and `card_group_name` as empty strings. -/
theorem record_field_set :
    (target_fields.length = 26 ∧ target_fields.Nodup) ∧
    (∀ (db : PgDatabase) (j : JoinedRow),
      (extractRecord db j).map Prod.fst = target_fields) ∧
    (∀ j : JoinedRow, (scriptransRecord j).map Prod.fst = target_fields) ∧
    (∀ (db : PgDatabase) (joined : List JoinedRow),
      ((extract_data_from_postgres db joined).all
        (fun r => r.map Prod.fst == target_fields)) = true) ∧
    (∀ (db : PgDatabase) (j : JoinedRow),
      (extractRecord db j).get? "no_show_date" = some .vNull ∧
      (extractRecord db j).get? "preference_guest" = some .vNull ∧
      (extractRecord db j).get? "preference_reservation" = some .vNull ∧
      (extractRecord db j).get? "season" = some .vNull) ∧
    (∀ j : JoinedRow,
      (scriptransRecord j).get? "no_show_date" = some .vNull ∧
      (scriptransRecord j).get? "preference_guest" = some .vNull ∧
      (scriptransRecord j).get? "preference_reservation" = some .vNull ∧
      (scriptransRecord j).get? "season" = some .vNull ∧
      (scriptransRecord j).get? "origin_city" = some (.vStr "") ∧
      (scriptransRecord j).get? "card_group_name" = some (.vStr "")) := by
  refine ⟨⟨rfl, by decide⟩, fun db j => rfl, fun j => rfl, fun db joined => ?_,
    fun db j => ⟨rfl, rfl, rfl, rfl⟩, fun j => ⟨rfl, rfl, rfl, rfl, rfl, rfl⟩⟩
  rw [List.all_eq_true]
  intro r hr
  simp only [extract_data_from_postgres, List.mem_map] at hr
  obtain ⟨j, -, rfl⟩ := hr
  exact beq_iff_eq.mpr rfl

/-- The `occupancy` field of an extracted record is the SQL sum of the
three occupant-count columns (either query variant). -/
theorem get?_occupancy (db : PgDatabase) (j : JoinedRow) :
    (extractRecord db j).get? "occupancy" =
      some (sqlAdd3 j.number_of_adult j.number_of_child j.inf) ∧
    (scriptransRecord j).get? "occupancy" =
      some (sqlAdd3 j.number_of_adult j.number_of_child j.inf) :=
  ⟨rfl, rfl⟩

/-- C8 -- `occupancy` is the integer sum `number_of_adult +
number_of_child + inf` of the source row (whenever the three counts are
integers), and the spec's example row yields, after transformation,
`arrival_date="2024-03-01"`, `departure_date="2024-03-05"` and
`occupancy=3`. -/
theorem occupancy_and_example (db : PgDatabase) (j : JoinedRow) (a c i : Int)
    (ha : j.number_of_adult = some a) (hc : j.number_of_child = some c)
    (hi : j.inf = some i) :
    ((extractRecord db j).get? "occupancy" = some (.vInt (a + c + i)) ∧
     (scriptransRecord j).get? "occupancy" = some (.vInt (a + c + i))) ∧
    ((transformRecord (extractRecord emptyDb scenarioRow)).get? "arrival_date" =
        some (.vStr "2024-03-01") ∧
     (transformRecord (extractRecord emptyDb scenarioRow)).get? "departure_date" =
        some (.vStr "2024-03-05") ∧
     (transformRecord (extractRecord emptyDb scenarioRow)).get? "occupancy" =
        some (.vInt 3)) := by
  refine ⟨⟨?_, ?_⟩, by decide, by decide, by decide⟩
  · rw [(get?_occupancy db j).1, ha, hc, hi]; rfl
  · rw [(get?_occupancy db j).2, ha, hc, hi]; rfl

/-- C8 witness: the general occupancy equation applied to the concrete
scenario row. -/
theorem occupancy_and_example_witness :
    (extractRecord emptyDb scenarioRow).get? "occupancy" = some (.vInt (2 + 1 + 0)) :=
  (occupancy_and_example emptyDb scenarioRow 2 1 0 rfl rfl rfl).1.1

/-- Under a unique-id key on `reservation_states`, the inner filter of
the count subquery keeps at most one state row: its length is `1` when a
matching row exists and `0` otherwise. -/
theorem stateFilter_length (states : List ReservationStateRow)
    (hn : (states.map (fun s => s.id)).Nodup) (sid : Option Int)
    (q : ReservationStateRow → Bool) :
    (states.filter (fun s2 => (sid == some s2.id) && q s2)).length =
      if states.any (fun s2 => (sid == some s2.id) && q s2) then 1 else 0 := by
  induction states with
  | nil => rfl
  | cons a l ih =>
    rw [List.map_cons, List.nodup_cons] at hn
    by_cases h : ((sid == some a.id) && q a) = true
    · have h1 : (sid == some a.id) = true ∧ q a = true := by simpa using h
      have hsid : sid = some a.id := eq_of_beq h1.1
      have htail : l.filter (fun s2 => (sid == some s2.id) && q s2) = [] := by
        refine List.filter_eq_nil_iff.mpr (fun s2 hs2 hcontra => ?_)
        have h2 : (sid == some s2.id) = true ∧ q s2 = true := by simpa using hcontra
        have hsid2 : sid = some s2.id := eq_of_beq h2.1
        refine hn.1 ?_
        rw [hsid] at hsid2
        have hid : a.id = s2.id := Option.some.inj hsid2
        rw [hid]
        exact List.mem_map.mpr ⟨s2, hs2, rfl⟩
      simp [List.filter_cons, List.any_cons, h, htail]
    · have h' : ((sid == some a.id) && q a) = false := by simpa using h
      simp only [List.filter_cons, List.any_cons, h', if_false, Bool.false_or,
        Bool.false_eq_true]
      exact ih hn.2

/-- A conjunct that does not depend on the quantified row commutes out
of a list `any`. -/
theorem any_const_and (l : List ReservationStateRow) (c : Bool)
    (A B : ReservationStateRow → Bool) :
    (l.any (fun s2 => A s2 && (c && B s2))) = (c && l.any (fun s2 => A s2 && B s2)) := by
  cases c
  · simp
  · simp

/-- The SQL `COUNT(*)` over the join equals, when state ids are unique,
the number of reservation-rooms of the guest whose state resolves to
`cancelled`. -/
theorem countCancelled_eq_spec (db : PgDatabase)
    (hn : (db.reservation_states.map (fun s => s.id)).Nodup) (g : Option Int) :
    countCancelled db g = countCancelledSpec db g := by
  unfold countCancelled countCancelledSpec
  induction db.reservation_rooms with
  | nil => rfl
  | cons r rooms ih =>
    rw [List.map_cons, List.sum_cons, List.filter_cons, ih]
    rw [stateFilter_length db.reservation_states hn r.reservation_state_id
      (fun s2 => sqlEqO r.master_guest_id g && (s2.system_value == "cancelled"))]
    rw [any_const_and db.reservation_states (sqlEqO r.master_guest_id g)
      (fun s2 => r.reservation_state_id == some s2.id)
      (fun s2 => s2.system_value == "cancelled")]
    unfold roomStateCancelled
    cases hc : (sqlEqO r.master_guest_id g &&
        db.reservation_states.any (fun s2 =>
          (r.reservation_state_id == some s2.id) && (s2.system_value == "cancelled")))
    · simp [hc]
    · simp only [hc, if_true, List.length_cons]
      omega

/-- The date subquery returns SQL `NULL` exactly when no cancelled state
history exists for the reservation-room. -/
theorem cancelledDateQuery_none_iff (db : PgDatabase) (roomId : Int) :
    cancelledDateQuery db roomId = none ↔ cancelledStamps db roomId = [] := by
  unfold cancelledDateQuery orderByCreatedAtAsc
  rw [List.head?_eq_none_iff]
  constructor
  · intro h
    have hp := List.perm_insertionSort dtLe (cancelledStamps db roomId)
    rw [h] at hp
    exact (hp.symm).eq_nil
  · intro h
    rw [h]
    rfl

/-- When the date subquery returns a timestamp, it is one of the
matching history timestamps and chronologically no later than any of
them. -/
theorem cancelledDateQuery_isMin (db : PgDatabase) (roomId : Int) (t : DateTime)
    (h : cancelledDateQuery db roomId = some t) :
    t ∈ cancelledStamps db roomId ∧
      ∀ u ∈ cancelledStamps db roomId, t.key ≤ u.key := by
  unfold cancelledDateQuery orderByCreatedAtAsc at h
  have hs := List.sorted_insertionSort dtLe (cancelledStamps db roomId)
  have hp := List.perm_insertionSort dtLe (cancelledStamps db roomId)
  cases e : (cancelledStamps db roomId).insertionSort dtLe with
  | nil => rw [e] at h; exact absurd h (by simp)
  | cons t' rest =>
    rw [e] at h hs hp
    have ht : t' = t := Option.some.inj h
    subst ht
    refine ⟨hp.mem_iff.mp (List.mem_cons_self t' rest), fun u hu => ?_⟩
    have hu' : u ∈ t' :: rest := hp.mem_iff.mpr hu
    rcases List.mem_cons.mp hu' with rfl | hmem
    · exact Nat.le_refl _
    · exact List.rel_of_sorted_cons hs u hmem

/-- C9 -- In the correlated-subquery variant: `preview_cancelled` counts
the historical reservation-rooms sharing the outer row's master guest
identity whose reservation state matches `cancelled` (state ids being
unique), and `cancelled_date` is the chronologically earliest timestamp
at which a cancelled state was recorded for that reservation-room, or
SQL `NULL` when no such state exists. -/
theorem correlated_subqueries_correct (db : PgDatabase) (g : Option Int) (roomId : Int)
    (hids : (db.reservation_states.map (fun s => s.id)).Nodup) :
    countCancelled db g = countCancelledSpec db g ∧
    (∀ t, cancelledDateQuery db roomId = some t →
      t ∈ cancelledStamps db roomId ∧
      ∀ u ∈ cancelledStamps db roomId, t.key ≤ u.key) ∧
    (cancelledDateQuery db roomId = none ↔ cancelledStamps db roomId = []) :=
  ⟨countCancelled_eq_spec db hids g,
   fun t ht => cancelledDateQuery_isMin db roomId t ht,
   cancelledDateQuery_none_iff db roomId⟩

/-- C9 witness: the subquery equivalence evaluated on the concrete
sample database (guest 7 has exactly one cancelled room). -/
theorem correlated_subqueries_correct_witness :
    countCancelled sampleDb (some 7) = countCancelledSpec sampleDb (some 7) :=
  (correlated_subqueries_correct sampleDb (some 7) 1 (by decide)).1
/-- C2 counterexample: with an empty collection and a one-record batch
that the sink accepts, `load_data_to_mongo` inserts one document and
logs the count `1`, but the Python function returns `None`, not the
count of inserted documents. -/
theorem load_returned_counterexample :
    (load_data_to_mongo true [] [] [[("reservation_id", Value.vInt 1)]]).1.loggedCount
        = some 1 ∧
    (load_data_to_mongo true [] [] [[("reservation_id", Value.vInt 1)]]).1.sink.length = 1 ∧
    ¬ (load_data_to_mongo true [] [] [[("reservation_id", Value.vInt 1)]]).1.returned
        = some 1 := by
  refine ⟨rfl, rfl, by decide⟩

/-- C2 (amended) -- The load operation reports (logs) the count of
inserted documents rather than returning it, its Python return value
being `None` on every path: on an empty batch it performs zero
`insert_many` calls, leaves the sink untouched and logs no inserted
count, and on a non-empty batch of `n` records that the sink accepts it
performs one bulk write, commits exactly the `n` records and logs
exactly `n` inserted. -/
theorem load_reports_count (sink records pw : List Record) (ok : Bool) :
    ((load_data_to_mongo ok pw sink []).1.insertManyCalls = 0 ∧
     (load_data_to_mongo ok pw sink []).1.sink = sink ∧
     (load_data_to_mongo ok pw sink []).1.loggedCount = none ∧
     (load_data_to_mongo ok pw sink []).2 = false) ∧
    (records ≠ [] →
      (load_data_to_mongo true pw sink records).1.insertManyCalls = 1 ∧
      (load_data_to_mongo true pw sink records).1.sink = sink ++ records ∧
      (load_data_to_mongo true pw sink records).1.loggedCount = some records.length ∧
      (load_data_to_mongo true pw sink records).2 = false) ∧
    (load_data_to_mongo ok pw sink records).1.returned = none := by
  refine ⟨⟨rfl, rfl, rfl, rfl⟩, fun h => ?_, ?_⟩
  · have h' : records.isEmpty = false := by
      cases records
      · exact absurd rfl h
      · rfl
    simp [load_data_to_mongo, h']
  · unfold load_data_to_mongo
    split
    · rfl
    · split
      · rfl
      · rfl

/-- C2 witness: the non-empty clause applied to a concrete one-record
batch. -/
theorem load_reports_count_witness :
    (load_data_to_mongo true [] [] [[("reservation_id", Value.vInt 2)]]).1.loggedCount
      = some 1 :=
  ((load_reports_count [] [[("reservation_id", Value.vInt 2)]] [] true).2.1
    (by decide)).2.2.1

/-- C5 -- On every execution path of either pipeline run — whichever
stage fails — the cleanup closes exactly the connections (and, for the
legacy script, the cursor) that were opened: no path ends with an
opened source or sink connection left open. -/
theorem connections_closed_on_every_path (env : Env) (senv : SEnv) :
    ((main_run env).pgClosed = (main_run env).pgOpened ∧
     (main_run env).mongoClosed = (main_run env).mongoOpened) ∧
    ((scriptrans_run senv).pgClosed = (scriptrans_run senv).pgOpened ∧
     (scriptrans_run senv).cursorClosed = (scriptrans_run senv).cursorOpened ∧
     (scriptrans_run senv).mongoClosed = (scriptrans_run senv).mongoOpened) :=
  ⟨⟨rfl, rfl⟩, rfl, rfl, rfl⟩

/-- C6 -- The top-level run propagates no error: on every environment
the exception (if any) raised inside the `try:` body is caught and
logged (printed, for the legacy script), the run completes normally,
and the process exit code is 0 whether the run loaded or failed. -/
theorem run_never_propagates (env : Env) (senv : SEnv) :
    (main_run env).raised = false ∧
    main_exit_code env = 0 ∧
    (main_run env).errorLogged = (main_try env).2 ∧
    (scriptrans_run senv).raised = false ∧
    (scriptrans_run senv).errorPrinted = (scriptrans_try senv).2 :=
  ⟨rfl, rfl, rfl, rfl, rfl⟩

/-- C7 -- If query execution fails during extraction (the source
connection having opened), the run aborts at once: the transform and
load stages are never entered, the sink connection is never opened,
nothing is written to the sink, and the orchestrator logs the error. -/
theorem extraction_failure_aborts (env : Env)
    (hpg : env.pgOk = true) (hex : env.extractResult = none) :
    (main_run env).enteredTransform = false ∧
    (main_run env).enteredLoad = false ∧
    (main_run env).mongoOpened = false ∧
    (main_run env).sinkDocs = [] ∧
    (main_run env).errorLogged = true := by
  simp [main_run, main_try, hpg, hex, initialBody]

/-- C7 witness: the abort evaluated in a concrete environment whose
extraction query fails. -/
theorem extraction_failure_aborts_witness :
    (main_run ⟨true, none, true, true, []⟩).sinkDocs = [] :=
  (extraction_failure_aborts ⟨true, none, true, true, []⟩ rfl rfl).2.2.2.1